import Mathlib

/-!
# Shallow embedding of the fitness-tracker module (src/homework.py)

The program converts raw workout readings into a training summary.  Python
dynamic values passed to validators are modelled by `PyVal`; Python `float`
arithmetic is modelled over `ℚ` (all the formulas are field arithmetic on
decimal constants); a computation that raises (`TypeError` from a validator,
`KeyError` from the dispatcher) is an `Except String` value carrying the
message of the raised error, and a numeric method that can raise
`ZeroDivisionError` (or that, like the base `get_spent_calories`, returns no
number at all) yields `Option ℚ`, `none` standing for the absence of a result.
-/

/-- A dynamically typed Python value as it reaches the validators: an `int`,
a `float`, or some other object (modelled by a string label), whose exact
`type` the validators inspect. -/
inductive PyVal where
  | int : ℤ → PyVal
  | float : ℚ → PyVal
  | str : String → PyVal
  deriving DecidableEq, Repr

/-- State of a validated `Training` object: the fields stored by the property
setters `action`, `duration`, `weight` of the Python base class. -/
structure Training where
  action : ℤ
  duration : ℚ
  weight : ℚ
  deriving DecidableEq, Repr

/-- Constant `Training.LEN_STEP = 0.65` (stride length, km per step, land activities). -/
def Training.LEN_STEP : ℚ := 0.65

/-- Constant `Training.M_IN_KM = 1000`. -/
def Training.M_IN_KM : ℚ := 1000

/-- Constant `Training.MIN_IN_H = 60`. -/
def Training.MIN_IN_H : ℚ := 60

/-- Validator `Training.verify_action`: `if type(action) is not int or action < 0: raise
TypeError(...)`.  On success the `action` setter stores the integer, so the
embedding returns it. -/
def Training.verify_action : PyVal → Except String ℤ
  | PyVal.int n =>
      if n < 0 then Except.error "Кол-во шагов должно быть типа int и больше 0"
      else Except.ok n
  | _ => Except.error "Кол-во шагов должно быть типа int и больше 0"

/-- Validator `Training.verify_duration`: `if type(duration) is not float or duration < 0`. -/
def Training.verify_duration : PyVal → Except String ℚ
  | PyVal.float q =>
      if q < 0 then
        Except.error "Длительность тренировки должна быть типа float и больше 0"
      else Except.ok q
  | _ => Except.error "Длительность тренировки должна быть типа float и больше 0"

/-- Validator `Training.verify_weight`: `if type(weight) is not float or weight < 0`. -/
def Training.verify_weight : PyVal → Except String ℚ
  | PyVal.float q =>
      if q < 0 then Except.error "Вес должен быть типа float и больше 0"
      else Except.ok q
  | _ => Except.error "Вес должен быть типа float и больше 0"

/-- The `action` property setter: reassignment re-runs `verify_action`. -/
def Training.set_action (t : Training) (v : PyVal) : Except String Training :=
  (Training.verify_action v).map (fun n => { t with action := n })

/-- The `duration` property setter: reassignment re-runs `verify_duration`. -/
def Training.set_duration (t : Training) (v : PyVal) : Except String Training :=
  (Training.verify_duration v).map (fun q => { t with duration := q })

/-- The `weight` property setter: reassignment re-runs `verify_weight`. -/
def Training.set_weight (t : Training) (v : PyVal) : Except String Training :=
  (Training.verify_weight v).map (fun q => { t with weight := q })

/-- Constructor `Training.__init__`: assigns `action`, `duration`, `weight` in that order,
each assignment going through its validating property setter. -/
def Training.init (action duration weight : PyVal) : Except String Training := do
  let a ← Training.verify_action action
  let d ← Training.verify_duration duration
  let w ← Training.verify_weight weight
  Except.ok ⟨a, d, w⟩

/-- Method `Training.get_distance`: `self.action * self.LEN_STEP / self.M_IN_KM`.
`self.LEN_STEP` is looked up dynamically (Swimming overrides it), so the
stride length is a parameter here; each class below fixes its own value. -/
def Training.get_distance (t : Training) (lenStep : ℚ) : ℚ :=
  t.action * lenStep / Training.M_IN_KM

/-- Method `Training.get_mean_speed`:
`(self.action * self.LEN_STEP / self.M_IN_KM) / self.duration`, raising
`ZeroDivisionError` (`none`) when `duration = 0`. -/
def Training.get_mean_speed (t : Training) (lenStep : ℚ) : Option ℚ :=
  if t.duration = 0 then none
  else some (t.action * lenStep / Training.M_IN_KM / t.duration)

/-- Method `Training.get_spent_calories`: the body is `pass`, so the call produces no
number (Python returns `None`). -/
def Training.get_spent_calories (_ : Training) : Option ℚ := none

/-- Class `Running` adds no fields. -/
structure Running extends Training
  deriving DecidableEq, Repr

/-- Constant `Running.__CALORIES_MEAN_SPEED_MULTIPLIER = 18`. -/
def Running.CALORIES_MEAN_SPEED_MULTIPLIER : ℚ := 18

/-- Constant `Running.__CALORIES_MEAN_SPEED_SHIFT = 1.79`. -/
def Running.CALORIES_MEAN_SPEED_SHIFT : ℚ := 1.79

/-- Constructor `Running.__init__` just delegates to the base constructor. -/
def Running.init (action duration weight : PyVal) : Except String Running :=
  (Training.init action duration weight).map Running.mk

/-- Class `Running` inherits `get_distance` with the base `LEN_STEP`. -/
def Running.get_distance (r : Running) : ℚ :=
  r.toTraining.get_distance Training.LEN_STEP

/-- Class `Running` inherits `get_mean_speed` with the base `LEN_STEP`. -/
def Running.get_mean_speed (r : Running) : Option ℚ :=
  r.toTraining.get_mean_speed Training.LEN_STEP

/-- Method `Running.get_spent_calories`:
`(mult * mean_speed + shift) * weight / M_IN_KM * duration * MIN_IN_H`,
where `mean_speed = super().get_mean_speed()`. -/
def Running.get_spent_calories (r : Running) : Option ℚ :=
  (r.toTraining.get_mean_speed Training.LEN_STEP).map (fun mean_speed =>
    (Running.CALORIES_MEAN_SPEED_MULTIPLIER * mean_speed
      + Running.CALORIES_MEAN_SPEED_SHIFT) * r.weight
      / Training.M_IN_KM * r.duration * Training.MIN_IN_H)

/-- Class `SportsWalking` adds the validated field `height`. -/
structure SportsWalking extends Training where
  height : ℚ
  deriving DecidableEq, Repr

/-- Constant `SportsWalking.__CALORIES_WEIGHT_MULTIPLIER = 0.035`. -/
def SportsWalking.CALORIES_WEIGHT_MULTIPLIER : ℚ := 0.035

/-- Constant `SportsWalking.__CALORIES_SPEED_HEIGHT_MULTIPLIER = 0.029`. -/
def SportsWalking.CALORIES_SPEED_HEIGHT_MULTIPLIER : ℚ := 0.029

/-- Constant `SportsWalking.__KMH_IN_MSEC = 0.278`. -/
def SportsWalking.KMH_IN_MSEC : ℚ := 0.278

/-- Constant `SportsWalking.__CM_IN_M = 100`. -/
def SportsWalking.CM_IN_M : ℚ := 100

/-- Validator `SportsWalking.verify_height`: `if type(height) is not float or height < 0`. -/
def SportsWalking.verify_height : PyVal → Except String ℚ
  | PyVal.float q =>
      if q < 0 then Except.error "Рост должен быть типа float и больше 0"
      else Except.ok q
  | _ => Except.error "Рост должен быть типа float и больше 0"

/-- Constructor `SportsWalking.__init__`: base constructor, then the validating `height`
setter. -/
def SportsWalking.init (action duration weight height : PyVal) :
    Except String SportsWalking := do
  let t ← Training.init action duration weight
  let h ← SportsWalking.verify_height height
  Except.ok ⟨t, h⟩

/-- Class `SportsWalking` inherits `get_distance` with the base `LEN_STEP`. -/
def SportsWalking.get_distance (w : SportsWalking) : ℚ :=
  w.toTraining.get_distance Training.LEN_STEP

/-- Class `SportsWalking` inherits `get_mean_speed` with the base `LEN_STEP`. -/
def SportsWalking.get_mean_speed (w : SportsWalking) : Option ℚ :=
  w.toTraining.get_mean_speed Training.LEN_STEP

/-- Method `SportsWalking.get_spent_calories`:
`(wMult * weight + (speed * KMH_IN_MSEC)**2 / (height / CM_IN_M) * shMult
  * weight) * duration * MIN_IN_H`, with `speed = super().get_mean_speed()`.
The division by `height / CM_IN_M` raises `ZeroDivisionError` (`none`) when
that quotient is zero. -/
def SportsWalking.get_spent_calories (w : SportsWalking) : Option ℚ :=
  (w.toTraining.get_mean_speed Training.LEN_STEP).bind (fun speed =>
    if w.height / SportsWalking.CM_IN_M = 0 then none
    else some ((SportsWalking.CALORIES_WEIGHT_MULTIPLIER * w.weight
      + (speed * SportsWalking.KMH_IN_MSEC) ^ 2
        / (w.height / SportsWalking.CM_IN_M)
        * SportsWalking.CALORIES_SPEED_HEIGHT_MULTIPLIER
        * w.weight)
      * w.duration * Training.MIN_IN_H))

/-- Class `Swimming` adds the validated fields `length_pool` and `count_pool`. -/
structure Swimming extends Training where
  length_pool : ℚ
  count_pool : ℤ
  deriving DecidableEq, Repr

/-- Constant `Swimming.LEN_STEP = 1.38` (stride length override). -/
def Swimming.LEN_STEP : ℚ := 1.38

/-- Constant `Swimming.__CALORIES_WEIGHT_MULTIPLIER = 2`. -/
def Swimming.CALORIES_WEIGHT_MULTIPLIER : ℚ := 2

/-- Constant `Swimming.__CALORIES_MEAN_SPEED_SHIFT = 1.1`. -/
def Swimming.CALORIES_MEAN_SPEED_SHIFT : ℚ := 1.1

/-- Validator `Swimming.verify_length_pool`: `if type(length_pool) is not float or
length_pool < 0`. -/
def Swimming.verify_length_pool : PyVal → Except String ℚ
  | PyVal.float q =>
      if q < 0 then Except.error "Длина бассейна должна быть типа float и больше 0"
      else Except.ok q
  | _ => Except.error "Длина бассейна должна быть типа float и больше 0"

/-- Validator `Swimming.verify_count_pool`: `if type(count_pool) is not int or
count_pool < 0`. -/
def Swimming.verify_count_pool : PyVal → Except String ℤ
  | PyVal.int n =>
      if n < 0 then Except.error "Число заплывов должно быть типа int и больше 0"
      else Except.ok n
  | _ => Except.error "Число заплывов должно быть типа int и больше 0"

/-- Constructor `Swimming.__init__`: base constructor, then the validating `length_pool`
and `count_pool` setters, in that order. -/
def Swimming.init (action duration weight length_pool count_pool : PyVal) :
    Except String Swimming := do
  let t ← Training.init action duration weight
  let lp ← Swimming.verify_length_pool length_pool
  let cp ← Swimming.verify_count_pool count_pool
  Except.ok ⟨t, lp, cp⟩

/-- Class `Swimming` inherits `get_distance`, with the overridden `LEN_STEP = 1.38`. -/
def Swimming.get_distance (s : Swimming) : ℚ :=
  s.toTraining.get_distance Swimming.LEN_STEP

/-- Method `Swimming.get_mean_speed`, the swimming override:
`self.length_pool * self.count_pool / self.M_IN_KM / self.duration`, raising
`ZeroDivisionError` (`none`) when `duration = 0`. -/
def Swimming.get_mean_speed (s : Swimming) : Option ℚ :=
  if s.duration = 0 then none
  else some (s.length_pool * s.count_pool / Training.M_IN_KM / s.duration)

/-- Method `Swimming.get_spent_calories`:
`(mean_speed + shift) * wMult * weight * duration`, with
`mean_speed = self.get_mean_speed()` (the swimming override). -/
def Swimming.get_spent_calories (s : Swimming) : Option ℚ :=
  s.get_mean_speed.map (fun mean_speed =>
    (mean_speed + Swimming.CALORIES_MEAN_SPEED_SHIFT)
      * Swimming.CALORIES_WEIGHT_MULTIPLIER * s.weight * s.duration)

/-- A `Training` object as handled polymorphically by `read_package` and
`main`: one of the three concrete variants. -/
inductive TrainingObj where
  | run : Running → TrainingObj
  | wlk : SportsWalking → TrainingObj
  | swm : Swimming → TrainingObj
  deriving DecidableEq, Repr

/-- Dispatcher `read_package`: looks the workout code up in
`{RUN: Running, SWM: Swimming, WLK: SportsWalking}`, raises
`KeyError("Пришел неожиданный тип тренировки")` when absent, and otherwise
calls the constructor on the unpacked positional data (`*data`); a data list
whose length does not match the constructor signature raises the `TypeError`
Python produces for a bad argument count. -/
def read_package (workout_type : String) (data : List PyVal) :
    Except String TrainingObj :=
  if workout_type = "RUN" then
    match data with
    | [a, d, w] => (Running.init a d w).map TrainingObj.run
    | _ => Except.error "TypeError: неверное число аргументов"
  else if workout_type = "SWM" then
    match data with
    | [a, d, w, lp, cp] => (Swimming.init a d w lp cp).map TrainingObj.swm
    | _ => Except.error "TypeError: неверное число аргументов"
  else if workout_type = "WLK" then
    match data with
    | [a, d, w, h] => (SportsWalking.init a d w h).map TrainingObj.wlk
    | _ => Except.error "TypeError: неверное число аргументов"
  else Except.error "Пришел неожиданный тип тренировки"

/-- Renders the three fractional digits of a thousandth count `n` (taken mod
1000), most significant first, zero padded. -/
def frac3 (n : ℕ) : String :=
  ⟨[Nat.digitChar (n / 100 % 10), Nat.digitChar (n / 10 % 10),
    Nat.digitChar (n % 10)]⟩

/-- Models CPython formatting of a float with format spec `.3f`, over the
rational model of floats: round the value to the nearest thousandth
(`⌊q * 1000 + 1/2⌋`, written on numerator and denominator with a floor
division; CPython resolves an exact tie on the underlying binary double to
even instead, a difference the rational abstraction ignores), then print the
integer part and exactly three fractional digits. -/
def Rat.format3 (q : ℚ) : String :=
  let n : ℤ := (q.num * 2000 + (q.den : ℤ)).fdiv (2 * (q.den : ℤ))
  (if n < 0 then "-" else "") ++ toString (n.natAbs / 1000) ++ "."
    ++ frac3 (n.natAbs % 1000)

/-- The `InfoMessage` dataclass: the immutable measurement record built once
per computation. -/
structure InfoMessage where
  training_type : String
  duration : ℚ
  distance : ℚ
  speed : ℚ
  calories : ℚ
  deriving DecidableEq, Repr

/-- Method `InfoMessage.get_message`: substitutes the five fields into the
fixed template, every numeric field through the `.3f` format spec. -/
def InfoMessage.get_message (m : InfoMessage) : String :=
  "Тип тренировки: " ++ m.training_type
    ++ "; Длительность: " ++ m.duration.format3
    ++ " ч.; Дистанция: " ++ m.distance.format3
    ++ " км; Ср. скорость: " ++ m.speed.format3
    ++ " км/ч; Потрачено ккал: " ++ m.calories.format3 ++ "."

/-- Base-class state of a polymorphic training object. -/
def TrainingObj.toTraining : TrainingObj → Training
  | TrainingObj.run r => r.toTraining
  | TrainingObj.wlk w => w.toTraining
  | TrainingObj.swm s => s.toTraining

/-- Dynamic `self.__class__.__name__` of a polymorphic training object. -/
def TrainingObj.class_name : TrainingObj → String
  | TrainingObj.run _ => "Running"
  | TrainingObj.wlk _ => "SportsWalking"
  | TrainingObj.swm _ => "Swimming"

/-- Dynamic dispatch of `get_distance`. -/
def TrainingObj.get_distance : TrainingObj → ℚ
  | TrainingObj.run r => r.get_distance
  | TrainingObj.wlk w => w.get_distance
  | TrainingObj.swm s => s.get_distance

/-- Dynamic dispatch of `get_mean_speed`. -/
def TrainingObj.get_mean_speed : TrainingObj → Option ℚ
  | TrainingObj.run r => r.get_mean_speed
  | TrainingObj.wlk w => w.get_mean_speed
  | TrainingObj.swm s => s.get_mean_speed

/-- Dynamic dispatch of `get_spent_calories`. -/
def TrainingObj.get_spent_calories : TrainingObj → Option ℚ
  | TrainingObj.run r => r.get_spent_calories
  | TrainingObj.wlk w => w.get_spent_calories
  | TrainingObj.swm s => s.get_spent_calories

/-- Method `show_training_info`: builds the `InfoMessage` from the class name,
the stored duration, and the three computed metrics; a `ZeroDivisionError`
raised while computing speed or calories propagates (`none`). -/
def TrainingObj.show_training_info (t : TrainingObj) : Option InfoMessage := do
  let speed ← t.get_mean_speed
  let calories ← t.get_spent_calories
  some ⟨t.class_name, t.toTraining.duration, t.get_distance, speed, calories⟩

/-- Helper: a character produced by `Nat.digitChar` on `n % 10` is a decimal
digit. -/
theorem digitChar_mod_ten_isDigit (n : ℕ) : (Nat.digitChar (n % 10)).isDigit := by
  have h : n % 10 < 10 := Nat.mod_lt _ (by norm_num)
  have key : ∀ m : Fin 10, (Nat.digitChar (m : ℕ)).isDigit := by decide
  exact key ⟨n % 10, h⟩

/-- Claim C1, amended: for code "RUN" with parameters [15000, 1.0, 75.0] the
dispatcher constructs the Running variant, which returns distance_km = 9.75,
mean_speed_kmh = 9.75, and spent_calories equal to the formula value
(18 × mean_speed + 1.79) × weight / 1000 × duration × 60 = 797.805 exactly
(the claimed 698.46 ± 0.1 is replaced by this value). -/
theorem run_scenario_metrics :
    read_package "RUN" [PyVal.int 15000, PyVal.float 1.0, PyVal.float 75.0]
      = Except.ok (TrainingObj.run ⟨⟨15000, 1, 75⟩⟩)
    ∧ Running.get_distance ⟨⟨15000, 1, 75⟩⟩ = 9.75
    ∧ Running.get_mean_speed ⟨⟨15000, 1, 75⟩⟩ = some 9.75
    ∧ Running.get_spent_calories ⟨⟨15000, 1, 75⟩⟩
        = some ((18 * 9.75 + 1.79) * 75 / 1000 * 1.0 * 60)
    ∧ (18 * 9.75 + 1.79) * 75 / 1000 * 1.0 * 60 = (797.805 : ℚ) := by
  refine ⟨?_, ?_, ?_, ?_, by norm_num⟩
  · simp [read_package, Running.init, Training.init, Training.verify_action,
      Training.verify_duration, Training.verify_weight, Except.map, Except.bind,
      bind, pure]
    norm_num
  · norm_num [Running.get_distance, Training.get_distance, Training.LEN_STEP,
      Training.M_IN_KM]
  · simp [Running.get_mean_speed, Training.get_mean_speed, Training.LEN_STEP,
      Training.M_IN_KM]
    norm_num
  · simp [Running.get_spent_calories, Training.get_mean_speed,
      Running.CALORIES_MEAN_SPEED_MULTIPLIER, Running.CALORIES_MEAN_SPEED_SHIFT,
      Training.LEN_STEP, Training.M_IN_KM, Training.MIN_IN_H]
    norm_num

/-- Claim C1, counterexample to the claim as stated: on the RUN scenario the
computed calories (797.805) are not within 0.1 of 698.46. -/
theorem run_scenario_calories_not_698 :
    ¬ ∃ c : ℚ, Running.get_spent_calories ⟨⟨15000, 1, 75⟩⟩ = some c
      ∧ |c - 698.46| ≤ 0.1 := by
  rintro ⟨c, hc, hle⟩
  have hv : Running.get_spent_calories ⟨⟨15000, 1, 75⟩⟩ = some (797.805 : ℚ) := by
    simp [Running.get_spent_calories, Training.get_mean_speed,
      Running.CALORIES_MEAN_SPEED_MULTIPLIER, Running.CALORIES_MEAN_SPEED_SHIFT,
      Training.LEN_STEP, Training.M_IN_KM, Training.MIN_IN_H]
    norm_num
  rw [hv] at hc
  have : c = (797.805 : ℚ) := (Option.some.injEq _ _).mp hc.symm
  subst this
  rw [abs_of_nonneg (by norm_num)] at hle
  norm_num at hle

/-- Claim C2, amended: for code "SWM" with parameters [720, 1.0, 80.0, 25.0,
40] the dispatcher constructs the Swimming variant, which returns
distance_km = 0.9936 (720 strokes × 1.38 / 1000; the claimed 1.0 is replaced
by this value), mean_speed_kmh = 1.0, and spent_calories = 336.0. -/
theorem swim_scenario_metrics :
    read_package "SWM" [PyVal.int 720, PyVal.float 1.0, PyVal.float 80.0,
        PyVal.float 25.0, PyVal.int 40]
      = Except.ok (TrainingObj.swm ⟨⟨720, 1, 80⟩, 25, 40⟩)
    ∧ Swimming.get_distance ⟨⟨720, 1, 80⟩, 25, 40⟩ = 0.9936
    ∧ Swimming.get_mean_speed ⟨⟨720, 1, 80⟩, 25, 40⟩ = some 1
    ∧ Swimming.get_spent_calories ⟨⟨720, 1, 80⟩, 25, 40⟩ = some 336 := by
  refine ⟨?_, ?_, ?_, ?_⟩
  · simp [read_package, Swimming.init, Training.init, Training.verify_action,
      Training.verify_duration, Training.verify_weight,
      Swimming.verify_length_pool, Swimming.verify_count_pool, Except.map,
      Except.bind, bind, pure]
    norm_num
  · norm_num [Swimming.get_distance, Training.get_distance, Swimming.LEN_STEP,
      Training.M_IN_KM]
  · simp [Swimming.get_mean_speed, Training.M_IN_KM]
    norm_num
  · simp [Swimming.get_spent_calories, Swimming.get_mean_speed,
      Swimming.CALORIES_WEIGHT_MULTIPLIER, Swimming.CALORIES_MEAN_SPEED_SHIFT,
      Training.M_IN_KM]
    norm_num

/-- Claim C2, counterexample to the claim as stated: on the SWM scenario the
distance is 0.9936 km, not 1.0 km. -/
theorem swim_scenario_distance_ne_one :
    Swimming.get_distance ⟨⟨720, 1, 80⟩, 25, 40⟩ ≠ 1 := by
  norm_num [Swimming.get_distance, Training.get_distance, Swimming.LEN_STEP,
    Training.M_IN_KM]

/-- Claim C3, amended: rendering a measurement record produces exactly the
single line with the Russian labels of the code,
`Тип тренировки: <name>; Длительность: <d> ч.; Дистанция: <km> км;
Ср. скорость: <kmh> км/ч; Потрачено ккал: <kcal>.` (the claimed English
labels are replaced by these), and every numeric field is rendered with
exactly three decimal digits after the point. -/
theorem get_message_template (m : InfoMessage) :
    m.get_message
      = "Тип тренировки: " ++ m.training_type ++ "; Длительность: "
        ++ m.duration.format3 ++ " ч.; Дистанция: " ++ m.distance.format3
        ++ " км; Ср. скорость: " ++ m.speed.format3
        ++ " км/ч; Потрачено ккал: " ++ m.calories.format3 ++ "."
    ∧ ∀ q : ℚ, ∃ intPart : String, ∃ k : ℕ,
        Rat.format3 q = intPart ++ "." ++ frac3 k
        ∧ (frac3 k).length = 3
        ∧ ∀ c ∈ (frac3 k).toList, c.isDigit := by
  refine ⟨rfl, fun q => ?_⟩
  refine ⟨(if ((q.num * 2000 + (q.den : ℤ)).fdiv (2 * (q.den : ℤ))) < 0
      then "-" else "")
      ++ toString (((q.num * 2000 + (q.den : ℤ)).fdiv (2 * (q.den : ℤ))).natAbs
        / 1000),
    ((q.num * 2000 + (q.den : ℤ)).fdiv (2 * (q.den : ℤ))).natAbs % 1000,
    ?_, rfl, ?_⟩
  · simp [Rat.format3, String.append_assoc]
  · intro c hc
    simp [frac3, String.toList] at hc
    rcases hc with h | h | h <;> subst h
    · exact digitChar_mod_ten_isDigit _
    · exact digitChar_mod_ten_isDigit _
    · exact digitChar_mod_ten_isDigit _

/-- Claim C3, witness: the template theorem applied to a concrete record. -/
theorem get_message_template_witness :
    InfoMessage.get_message ⟨"Running", 1, 2, 3, 4⟩
      = "Тип тренировки: Running; Длительность: 1.000 ч.; Дистанция: 2.000 км; Ср. скорость: 3.000 км/ч; Потрачено ккал: 4.000." :=
  ((get_message_template ⟨"Running", 1, 2, 3, 4⟩).1).trans (by decide)

/-- Claim C3, counterexample to the claim as stated: the rendered line does
not carry the English labels the claim quotes. -/
theorem get_message_not_english_template :
    InfoMessage.get_message ⟨"Running", 1, 2, 3, 4⟩
      ≠ "Activity type: Running; Duration: 1.000 h; Distance: 2.000 km; Mean speed: 3.000 km/h; Calories burned: 4.000." := by
  decide

/-- Claim C4: the base class calorie method yields no value (its body is
`pass`), while every variant overrides it with a computation that yields a
value on every validly constructed instance whose divisions are defined. -/
theorem spent_calories_abstract :
    (∀ t : Training, t.get_spent_calories = none)
    ∧ (∀ r : Running, 0 < r.duration → ∃ q, r.get_spent_calories = some q)
    ∧ (∀ w : SportsWalking, 0 < w.duration → 0 < w.height →
        ∃ q, w.get_spent_calories = some q)
    ∧ (∀ s : Swimming, 0 < s.duration → ∃ q, s.get_spent_calories = some q) := by
  refine ⟨fun t => rfl, fun r hd => ?_, fun w hd hh => ?_, fun s hd => ?_⟩
  · refine Option.isSome_iff_exists.mp ?_
    simp [Running.get_spent_calories, Training.get_mean_speed, hd.ne.symm]
  · refine Option.isSome_iff_exists.mp ?_
    have h100 : w.height / SportsWalking.CM_IN_M ≠ 0 := by
      rw [SportsWalking.CM_IN_M]
      exact div_ne_zero hh.ne.symm (by norm_num)
    simp [SportsWalking.get_spent_calories, Training.get_mean_speed,
      hd.ne.symm, h100]
  · refine Option.isSome_iff_exists.mp ?_
    simp [Swimming.get_spent_calories, Swimming.get_mean_speed, hd.ne.symm]

/-- Claim C4, witness: the abstract-method theorem at the three scenario
instances and one base-class state. -/
theorem spent_calories_abstract_witness :
    Training.get_spent_calories ⟨0, 0, 0⟩ = none
    ∧ (∃ q, Running.get_spent_calories ⟨⟨15000, 1, 75⟩⟩ = some q)
    ∧ (∃ q, SportsWalking.get_spent_calories ⟨⟨9000, 1, 75⟩, 180⟩ = some q)
    ∧ (∃ q, Swimming.get_spent_calories ⟨⟨720, 1, 80⟩, 25, 40⟩ = some q) :=
  ⟨spent_calories_abstract.1 _,
   spent_calories_abstract.2.1 _ (by norm_num),
   spent_calories_abstract.2.2.1 _ (by norm_num) (by norm_num),
   spent_calories_abstract.2.2.2 _ (by norm_num)⟩

/-- Claim C5: on any assignment (construction or later reassignment),
step-count validation succeeds exactly on an integer-typed value ≥ 0 and
duration and weight validation succeed exactly on a real-typed value ≥ 0,
each failure raising the error that names the field; in particular a
negative step count, a real where an integer is expected, and an integer
where a real is expected are all rejected. -/
theorem field_validation :
    (∀ n : ℤ, 0 ≤ n → Training.verify_action (PyVal.int n) = Except.ok n)
    ∧ (∀ n : ℤ, n < 0 → Training.verify_action (PyVal.int n)
        = Except.error "Кол-во шагов должно быть типа int и больше 0")
    ∧ (∀ q : ℚ, Training.verify_action (PyVal.float q)
        = Except.error "Кол-во шагов должно быть типа int и больше 0")
    ∧ (∀ q : ℚ, 0 ≤ q → Training.verify_duration (PyVal.float q) = Except.ok q)
    ∧ (∀ q : ℚ, q < 0 → Training.verify_duration (PyVal.float q)
        = Except.error "Длительность тренировки должна быть типа float и больше 0")
    ∧ (∀ n : ℤ, Training.verify_duration (PyVal.int n)
        = Except.error "Длительность тренировки должна быть типа float и больше 0")
    ∧ (∀ q : ℚ, 0 ≤ q → Training.verify_weight (PyVal.float q) = Except.ok q)
    ∧ (∀ q : ℚ, q < 0 → Training.verify_weight (PyVal.float q)
        = Except.error "Вес должен быть типа float и больше 0")
    ∧ (∀ n : ℤ, Training.verify_weight (PyVal.int n)
        = Except.error "Вес должен быть типа float и больше 0")
    ∧ (∀ t : Training, ∀ n : ℤ, 0 ≤ n →
        t.set_action (PyVal.int n) = Except.ok { t with action := n })
    ∧ (∀ t : Training, ∀ q : ℚ, t.set_action (PyVal.float q)
        = Except.error "Кол-во шагов должно быть типа int и больше 0")
    ∧ (∀ t : Training, ∀ q : ℚ, 0 ≤ q →
        t.set_duration (PyVal.float q) = Except.ok { t with duration := q })
    ∧ (∀ t : Training, ∀ n : ℤ, t.set_duration (PyVal.int n)
        = Except.error "Длительность тренировки должна быть типа float и больше 0")
    ∧ (∀ t : Training, ∀ q : ℚ, 0 ≤ q →
        t.set_weight (PyVal.float q) = Except.ok { t with weight := q })
    ∧ (∀ t : Training, ∀ n : ℤ, t.set_weight (PyVal.int n)
        = Except.error "Вес должен быть типа float и больше 0") := by
  refine ⟨fun n h => ?_, fun n h => ?_, fun q => rfl, fun q h => ?_,
    fun q h => ?_, fun n => rfl, fun q h => ?_, fun q h => ?_, fun n => rfl,
    fun t n h => ?_, fun t q => rfl, fun t q h => ?_, fun t n => rfl,
    fun t q h => ?_, fun t n => rfl⟩
  · simp [Training.verify_action, not_lt.mpr h]
  · simp [Training.verify_action, h]
  · simp [Training.verify_duration, not_lt.mpr h]
  · simp [Training.verify_duration, h]
  · simp [Training.verify_weight, not_lt.mpr h]
  · simp [Training.verify_weight, h]
  · simp [Training.set_action, Training.verify_action, not_lt.mpr h, Except.map]
  · simp [Training.set_duration, Training.verify_duration, not_lt.mpr h,
      Except.map]
  · simp [Training.set_weight, Training.verify_weight, not_lt.mpr h,
      Except.map]

/-- Claim C5, witness: the validation theorem at concrete accepted and
rejected values. -/
theorem field_validation_witness :
    Training.verify_action (PyVal.int 500) = Except.ok 500
    ∧ Training.verify_action (PyVal.int (-3))
        = Except.error "Кол-во шагов должно быть типа int и больше 0"
    ∧ Training.verify_action (PyVal.float 2.5)
        = Except.error "Кол-во шагов должно быть типа int и больше 0"
    ∧ Training.verify_duration (PyVal.float 1.5) = Except.ok 1.5
    ∧ Training.verify_duration (PyVal.int 1)
        = Except.error "Длительность тренировки должна быть типа float и больше 0"
    ∧ Training.verify_weight (PyVal.float (-0.5))
        = Except.error "Вес должен быть типа float и больше 0"
    ∧ Training.set_duration ⟨100, 1, 70⟩ (PyVal.float 2.5)
        = Except.ok ⟨100, 2.5, 70⟩ :=
  ⟨field_validation.1 500 (by norm_num),
   field_validation.2.1 (-3) (by norm_num),
   field_validation.2.2.1 2.5,
   field_validation.2.2.2.1 1.5 (by norm_num),
   field_validation.2.2.2.2.2.1 1,
   field_validation.2.2.2.2.2.2.2.1 (-0.5) (by norm_num),
   field_validation.2.2.2.2.2.2.2.2.2.2.2.1 ⟨100, 1, 70⟩ 2.5 (by norm_num)⟩

/-- Claim C6: a code outside RUN, SWM, WLK makes the dispatcher raise the
unknown-activity error; each known code delegates to the matching variant
constructor on the positional data, and a validation failure raised by the
constructor propagates unchanged. -/
theorem read_package_dispatch :
    (∀ code : String, ∀ data : List PyVal,
      code ≠ "RUN" → code ≠ "SWM" → code ≠ "WLK" →
      read_package code data = Except.error "Пришел неожиданный тип тренировки")
    ∧ (∀ a d w : PyVal, read_package "RUN" [a, d, w]
        = (Running.init a d w).map TrainingObj.run)
    ∧ (∀ a d w lp cp : PyVal, read_package "SWM" [a, d, w, lp, cp]
        = (Swimming.init a d w lp cp).map TrainingObj.swm)
    ∧ (∀ a d w h : PyVal, read_package "WLK" [a, d, w, h]
        = (SportsWalking.init a d w h).map TrainingObj.wlk)
    ∧ (∀ a d w : PyVal, ∀ e : String, Running.init a d w = Except.error e →
        read_package "RUN" [a, d, w] = Except.error e)
    ∧ (∀ a d w lp cp : PyVal, ∀ e : String,
        Swimming.init a d w lp cp = Except.error e →
        read_package "SWM" [a, d, w, lp, cp] = Except.error e)
    ∧ (∀ a d w h : PyVal, ∀ e : String,
        SportsWalking.init a d w h = Except.error e →
        read_package "WLK" [a, d, w, h] = Except.error e) := by
  refine ⟨fun code data h1 h2 h3 => ?_, fun a d w => rfl, fun a d w lp cp => rfl,
    fun a d w h => rfl, fun a d w e he => ?_, fun a d w lp cp e he => ?_,
    fun a d w h e he => ?_⟩
  · simp [read_package, h1, h2, h3]
  · show (Running.init a d w).map TrainingObj.run = Except.error e
    rw [he]; rfl
  · show (Swimming.init a d w lp cp).map TrainingObj.swm = Except.error e
    rw [he]; rfl
  · show (SportsWalking.init a d w h).map TrainingObj.wlk = Except.error e
    rw [he]; rfl

/-- Claim C6, witness: an unknown code raises, a known code delegates, and a
construction failure propagates. -/
theorem read_package_dispatch_witness :
    read_package "XYZ" [] = Except.error "Пришел неожиданный тип тренировки"
    ∧ read_package "RUN" [PyVal.int 1, PyVal.float 1.0, PyVal.float 70.0]
        = (Running.init (PyVal.int 1) (PyVal.float 1.0)
            (PyVal.float 70.0)).map TrainingObj.run
    ∧ read_package "RUN" [PyVal.int (-1), PyVal.float 1.0, PyVal.float 70.0]
        = Except.error "Кол-во шагов должно быть типа int и больше 0" :=
  ⟨read_package_dispatch.1 "XYZ" [] (by decide) (by decide) (by decide),
   read_package_dispatch.2.1 (PyVal.int 1) (PyVal.float 1.0) (PyVal.float 70.0),
   read_package_dispatch.2.2.2.2.1 (PyVal.int (-1)) (PyVal.float 1.0)
     (PyVal.float 70.0) _ (by simp [Running.init, Training.init,
       Training.verify_action, Except.map, Except.bind, bind])⟩

/-- Claim C7: on a validly constructed race-walking instance with positive
height and positive duration, the calories equal (0.035 × weight +
(mean_speed × 0.278)² / (height / 100) × 0.029 × weight) × duration × 60. -/
theorem sports_walking_calories_formula :
    ∀ w : SportsWalking, 0 < w.height → 0 < w.duration →
    ∀ v : ℚ, w.get_mean_speed = some v →
    w.get_spent_calories
      = some ((0.035 * w.weight + (v * 0.278) ^ 2 / (w.height / 100)
          * 0.029 * w.weight) * w.duration * 60) := by
  intro w hh hd v hv
  have h100 : ¬ w.height / SportsWalking.CM_IN_M = 0 := by
    rw [SportsWalking.CM_IN_M]
    exact div_ne_zero hh.ne.symm (by norm_num)
  have hv2 : w.toTraining.get_mean_speed Training.LEN_STEP = some v := hv
  rw [SportsWalking.get_spent_calories, hv2, Option.some_bind, if_neg h100]
  rw [SportsWalking.CALORIES_WEIGHT_MULTIPLIER,
    SportsWalking.CALORIES_SPEED_HEIGHT_MULTIPLIER, SportsWalking.KMH_IN_MSEC,
    SportsWalking.CM_IN_M, Training.MIN_IN_H]

/-- Claim C7, witness: the formula theorem at the WLK scenario instance,
whose mean speed is 5.85 km/h. -/
theorem sports_walking_calories_formula_witness :
    SportsWalking.get_spent_calories ⟨⟨9000, 1, 75⟩, 180⟩
      = some ((0.035 * 75 + ((5.85 : ℚ) * 0.278) ^ 2 / (180 / 100)
          * 0.029 * 75) * 1 * 60) :=
  sports_walking_calories_formula ⟨⟨9000, 1, 75⟩, 180⟩ (by norm_num)
    (by norm_num) 5.85
    (by simp [SportsWalking.get_mean_speed, Training.get_mean_speed,
          Training.LEN_STEP, Training.M_IN_KM]
        norm_num)

/-- Claim C8: on a swimming instance with positive duration the overridden
mean speed equals pool_length × lap_count / 1000 / duration, and two
instances agreeing on those three fields have the same mean speed, whatever
their step counts (and weights). -/
theorem swimming_mean_speed_formula :
    (∀ s : Swimming, 0 < s.duration →
      s.get_mean_speed
        = some (s.length_pool * s.count_pool / 1000 / s.duration))
    ∧ (∀ s₁ s₂ : Swimming, s₁.length_pool = s₂.length_pool →
        s₁.count_pool = s₂.count_pool → s₁.duration = s₂.duration →
        s₁.get_mean_speed = s₂.get_mean_speed) := by
  constructor
  · intro s hd
    rw [Swimming.get_mean_speed, if_neg hd.ne.symm, Training.M_IN_KM]
  · intro s₁ s₂ hlp hcp hdur
    rw [Swimming.get_mean_speed, Swimming.get_mean_speed, hlp, hcp, hdur]

/-- Claim C8, witness: the SWM scenario instance, and a second instance
differing only in the step count. -/
theorem swimming_mean_speed_formula_witness :
    Swimming.get_mean_speed ⟨⟨720, 1, 80⟩, 25, 40⟩
      = some ((25 : ℚ) * 40 / 1000 / 1)
    ∧ Swimming.get_mean_speed ⟨⟨720, 1, 80⟩, 25, 40⟩
      = Swimming.get_mean_speed ⟨⟨99999, 1, 80⟩, 25, 40⟩ :=
  ⟨swimming_mean_speed_formula.1 ⟨⟨720, 1, 80⟩, 25, 40⟩ (by norm_num),
   swimming_mean_speed_formula.2 ⟨⟨720, 1, 80⟩, 25, 40⟩ ⟨⟨99999, 1, 80⟩, 25, 40⟩
     rfl rfl rfl⟩

/-- Claim C9: for Running and for race walking, the distance is monotonically
non-decreasing in the step count when every other field is fixed. -/
theorem distance_monotone_in_action :
    (∀ r₁ r₂ : Running, r₁.duration = r₂.duration → r₁.weight = r₂.weight →
      r₁.action ≤ r₂.action → r₁.get_distance ≤ r₂.get_distance)
    ∧ (∀ w₁ w₂ : SportsWalking, w₁.duration = w₂.duration →
        w₁.weight = w₂.weight → w₁.height = w₂.height →
        w₁.action ≤ w₂.action → w₁.get_distance ≤ w₂.get_distance) := by
  constructor
  · intro r₁ r₂ _ _ ha
    have hc : (r₁.action : ℚ) ≤ (r₂.action : ℚ) := Int.cast_le.mpr ha
    simp only [Running.get_distance, Training.get_distance, Training.LEN_STEP,
      Training.M_IN_KM]
    gcongr
  · intro w₁ w₂ _ _ _ ha
    have hc : (w₁.action : ℚ) ≤ (w₂.action : ℚ) := Int.cast_le.mpr ha
    simp only [SportsWalking.get_distance, Training.get_distance,
      Training.LEN_STEP, Training.M_IN_KM]
    gcongr

/-- Claim C9, witness: the monotonicity theorem at two instances of each
land variant. -/
theorem distance_monotone_in_action_witness :
    Running.get_distance ⟨⟨9000, 1, 75⟩⟩ ≤ Running.get_distance ⟨⟨15000, 1, 75⟩⟩
    ∧ SportsWalking.get_distance ⟨⟨4000, 2, 80⟩, 175⟩
      ≤ SportsWalking.get_distance ⟨⟨9000, 2, 80⟩, 175⟩ :=
  ⟨distance_monotone_in_action.1 ⟨⟨9000, 1, 75⟩⟩ ⟨⟨15000, 1, 75⟩⟩ rfl rfl
     (by norm_num),
   distance_monotone_in_action.2 ⟨⟨4000, 2, 80⟩, 175⟩ ⟨⟨9000, 2, 80⟩, 175⟩
     rfl rfl rfl (by norm_num)⟩

/-- Claim C10: the duration validator accepts 0.0, so every variant can be
constructed with a zero duration; the speed (and hence calorie) methods then
perform an unguarded division by the zero duration and yield no result. -/
theorem zero_duration_accepted_then_division_error :
    Training.verify_duration (PyVal.float 0) = Except.ok 0
    ∧ (∀ n : ℤ, 0 ≤ n → ∀ q : ℚ, 0 ≤ q →
        Running.init (PyVal.int n) (PyVal.float 0) (PyVal.float q)
          = Except.ok ⟨⟨n, 0, q⟩⟩)
    ∧ (∀ n : ℤ, 0 ≤ n → ∀ q h : ℚ, 0 ≤ q → 0 ≤ h →
        SportsWalking.init (PyVal.int n) (PyVal.float 0) (PyVal.float q)
            (PyVal.float h)
          = Except.ok ⟨⟨n, 0, q⟩, h⟩)
    ∧ (∀ n cp : ℤ, 0 ≤ n → 0 ≤ cp → ∀ q lp : ℚ, 0 ≤ q → 0 ≤ lp →
        Swimming.init (PyVal.int n) (PyVal.float 0) (PyVal.float q)
            (PyVal.float lp) (PyVal.int cp)
          = Except.ok ⟨⟨n, 0, q⟩, lp, cp⟩)
    ∧ (∀ r : Running, r.duration = 0 →
        r.get_mean_speed = none ∧ r.get_spent_calories = none)
    ∧ (∀ w : SportsWalking, w.duration = 0 →
        w.get_mean_speed = none ∧ w.get_spent_calories = none)
    ∧ (∀ s : Swimming, s.duration = 0 →
        s.get_mean_speed = none ∧ s.get_spent_calories = none) := by
  refine ⟨rfl, fun n hn q hq => ?_, fun n hn q h hq hh => ?_,
    fun n cp hn hcp q lp hq hlp => ?_, fun r hd => ?_, fun w hd => ?_,
    fun s hd => ?_⟩
  · simp [Running.init, Training.init, Training.verify_action,
      Training.verify_duration, Training.verify_weight, not_lt.mpr hn,
      not_lt.mpr hq, Except.map, Except.bind, bind, pure]
  · simp [SportsWalking.init, Training.init, Training.verify_action,
      Training.verify_duration, Training.verify_weight,
      SportsWalking.verify_height, not_lt.mpr hn, not_lt.mpr hq,
      not_lt.mpr hh, Except.map, Except.bind, bind, pure]
  · simp [Swimming.init, Training.init, Training.verify_action,
      Training.verify_duration, Training.verify_weight,
      Swimming.verify_length_pool, Swimming.verify_count_pool, not_lt.mpr hn,
      not_lt.mpr hcp, not_lt.mpr hq, not_lt.mpr hlp, Except.map, Except.bind,
      bind, pure]
  · exact ⟨by simp [Running.get_mean_speed, Training.get_mean_speed, hd],
      by simp [Running.get_spent_calories, Training.get_mean_speed, hd]⟩
  · exact ⟨by simp [SportsWalking.get_mean_speed, Training.get_mean_speed, hd],
      by simp [SportsWalking.get_spent_calories, Training.get_mean_speed, hd]⟩
  · exact ⟨by simp [Swimming.get_mean_speed, hd],
      by simp [Swimming.get_spent_calories, Swimming.get_mean_speed, hd]⟩

/-- Claim C10, witness: a zero-duration run is constructed successfully, then
yields no speed and no calories; the zero-duration swim yields no speed. -/
theorem zero_duration_witness :
    Running.init (PyVal.int 15000) (PyVal.float 0) (PyVal.float 75)
      = Except.ok ⟨⟨15000, 0, 75⟩⟩
    ∧ Running.get_mean_speed ⟨⟨15000, 0, 75⟩⟩ = none
    ∧ Running.get_spent_calories ⟨⟨15000, 0, 75⟩⟩ = none
    ∧ Swimming.get_mean_speed ⟨⟨720, 0, 80⟩, 25, 40⟩ = none :=
  ⟨zero_duration_accepted_then_division_error.2.1 15000 (by norm_num) 75
     (by norm_num),
   (zero_duration_accepted_then_division_error.2.2.2.2.1 ⟨⟨15000, 0, 75⟩⟩ rfl).1,
   (zero_duration_accepted_then_division_error.2.2.2.2.1 ⟨⟨15000, 0, 75⟩⟩ rfl).2,
   (zero_duration_accepted_then_division_error.2.2.2.2.2.2 ⟨⟨720, 0, 80⟩, 25, 40⟩
     rfl).1⟩
